import Mathlib

/-!
OpenAPI configuration builders of the OAuth API server.

A shallow embedding of `pkg/cmd/oauth-apiserver/openapiconfig/openapiconfig.go`.

The two builders return pointers and store pointers, slices and maps in the
structures they build, and one of the pointers is the address of a package-level
variable.  To be able to speak about what two results share, the embedding keeps
an explicit heap: one store per Go type, addressed by natural numbers, with a
single allocation counter.  A builder is a function from the heap before the
call to the heap after the call and the returned pointer.

Everything that is imported from another package (the version string, the
generated definitions, the schemes, the definition namer, the heredoc helper and
the framework's default v3 configuration) is a field of `Collaborators`.
-/

namespace openapiconfig

/-- A Go pointer or map reference: `none` is `nil`, `some a` is the object at address
`a` (addresses are natural numbers). -/
abbrev Ptr := Option Nat

/-- A Go slice header: pointer to the backing array, length and capacity. -/
structure Slice where
  array : Ptr
  len : Nat
  cap : Nat
  deriving DecidableEq, Repr, Inhabited

namespace spec

/-- The fields of `spec.License`. -/
structure License where
  Name : String
  URL : String
  deriving DecidableEq, Repr, Inhabited

/-- The fields of `spec.Info` (through `spec.InfoProps`) that the source sets; the
remaining ones keep their zero value.  `License` is a `*spec.License`. -/
structure Info where
  Title : String
  Version : String
  License : Ptr
  Description : String
  deriving DecidableEq, Repr, Inhabited

/-- The fields of `spec.SecurityScheme` (through `spec.SecuritySchemeProps`) that
the source sets. -/
structure SecurityScheme where
  Type_ : String
  Name : String
  In : String
  Description : String
  deriving DecidableEq, Repr, Inhabited

/-- The field of `spec.Response` (through `spec.ResponseProps`) that the source sets. -/
structure Response where
  Description : String
  deriving DecidableEq, Repr, Inhabited

end spec

namespace spec3

/-- The fields of `spec3.SecurityScheme` (through `spec3.SecuritySchemeProps`) that
the source sets. -/
structure SecurityScheme where
  Type_ : String
  Name : String
  In : String
  Description : String
  deriving DecidableEq, Repr, Inhabited

end spec3

/-- The fields of `openapicommon.Config` that the source sets; a composite literal
leaves the others at their zero value.  `GetDefs` and `NameFn` are the types of
the two function values. `Info`, `DefaultResponse` and `SecurityDefinitions` are
pointers, the last one to a variable of map type. -/
structure Config (GetDefs NameFn : Type) where
  ProtocolList : Slice
  GetDefinitions : GetDefs
  IgnorePrefixes : Slice
  GetDefinitionName : NameFn
  Info : Ptr
  DefaultResponse : Ptr
  SecurityDefinitions : Ptr

/-- The value `openapicommon.OpenAPIV3Config`: the three fields the source assigns,
the two capabilities, and `other` for all the remaining fields together.
`SecuritySchemes` is a map reference. -/
structure OpenAPIV3Config (GetDefs NameFn Rest : Type) where
  Info : Ptr
  IgnorePrefixes : Slice
  GetDefinitions : GetDefs
  GetDefinitionName : NameFn
  SecuritySchemes : Ptr
  other : Rest

/-- The heap: one total store per type of object and the next free address.
`strArrays` holds the backing arrays of `[]string` slices, `secDefMaps` and
`schemeMaps3` the contents of the maps `map[string]*spec.SecurityScheme` and
`map[string]*spec3.SecurityScheme` as association lists with distinct keys, and
`secDefVars` the variables of type `spec.SecurityDefinitions` whose address is
taken (each holds a map reference). -/
structure Heap (GetDefs NameFn Rest : Type) where
  next : Nat
  licenses : Nat → spec.License
  infos : Nat → spec.Info
  strArrays : Nat → List String
  responses : Nat → spec.Response
  schemes : Nat → spec.SecurityScheme
  secDefMaps : Nat → List (String × Ptr)
  secDefVars : Nat → Ptr
  configs : Nat → Config GetDefs NameFn
  schemes3 : Nat → spec3.SecurityScheme
  schemeMaps3 : Nat → List (String × Ptr)
  v3configs : Nat → OpenAPIV3Config GetDefs NameFn Rest

/-- Store `v` at address `a`. -/
def upd {α : Type} (f : Nat → α) (a : Nat) (v : α) : Nat → α :=
  fun b => if b = a then v else f b

/-- Go map assignment `m[k] = v` on the association list of a map. -/
def mapAssign (m : List (String × Ptr)) (k : String) (v : Ptr) : List (String × Ptr) :=
  if m.any (fun e => e.1 == k) then m.map (fun e => if e.1 == k then (k, v) else e)
  else m ++ [(k, v)]

/-- How a builder can fail: a panic raised by the framework helper, or
the run-time panic of an assignment through a nil pointer. -/
inductive Failure (Fail : Type) where
  | host (e : Fail)
  | nilPointerDereference
  deriving DecidableEq, Repr

/-- What the package imports.  `versionString` is `version.Get().String()`,
`heredocDoc` is `heredoc.Doc`, `GetOpenAPIDefinitions` is
`openapigenerated.GetOpenAPIDefinitions`, the three schemes are
`legacyscheme.Scheme`, `extensionsapiserver.Scheme` and `aggregatorscheme.Scheme`,
`NewDefinitionNamer` is `apiserverendpointsopenapi.NewDefinitionNamer` (variadic),
`GetDefinitionName` takes a namer to its method value `GetDefinitionName`, and
`hostDefaultOpenAPIV3Config` is `genericapiserver.DefaultOpenAPIV3Config`: it runs
on the heap, and either panics or returns a pointer, which may be nil. -/
structure Collaborators (Scheme Namer GetDefs NameFn Rest Fail : Type) where
  versionString : String
  heredocDoc : String → String
  GetOpenAPIDefinitions : GetDefs
  legacyScheme : Scheme
  extensionsScheme : Scheme
  aggregatorScheme : Scheme
  NewDefinitionNamer : List Scheme → Namer
  GetDefinitionName : Namer → NameFn
  hostDefaultOpenAPIV3Config :
    GetDefs → Namer → Heap GetDefs NameFn Rest → Except Fail (Heap GetDefs NameFn Rest × Ptr)

/-- The raw string literal handed to `heredoc.Doc` in the initialiser of `specInfo`,
line by line. -/
def descriptionLiteral : String := String.intercalate "\n" [
  "",
  "\t\t\tOpenShift OAuth APIs provide access and authorization tokens,",
  "\t\t\tusers, groups and similar objects required for OpenShift integrated",
  "\t\t\tOAuth authentication to work on top of Kubernetes. The API allows",
  "\t\t\tconsistent management of those objects.",
  "",
  "\t\t\tAll API operations are authenticated via an Authorization bearer token that",
  "\t\t\tis provided for service accounts as a generated secret (in JWT form) or via",
  "\t\t\tthe native OAuth access tokens. Core infrastructure components may use client",
  "\t\t\tcertificates that require no authentication.",
  "",
  "\t\t\tAll API operations return a 'resourceVersion' string that represents the",
  "\t\t\tversion of the object in the underlying storage. The standard LIST operation",
  "\t\t\tperforms a snapshot read of the underlying objects, returning a resourceVersion",
  "\t\t\trepresenting a consistent version of the listed objects. The WATCH operation",
  "\t\t\tallows all updates to a set of objects after the provided resourceVersion to",
  "\t\t\tbe observed by a client. By listing and beginning a watch from the returned",
  "\t\t\tresourceVersion, clients may observe a consistent view of the state of one",
  "\t\t\tor more objects. Note that WATCH always returns the update after the provided",
  "\t\t\tresourceVersion. Watch may be extended a limited time in the past - using",
  "\t\t\tetcd 2 the watch window is 1000 events (which on a large cluster may only",
  "\t\t\tbe a few tens of seconds) so clients must explicitly handle the \"watch",
  "\t\t\tto old error\" by re-listing.",
  "",
  "\t\t\tObjects are divided into two rough categories - those that have a lifecycle",
  "\t\t\tand must reflect the state of the cluster, and those that have no state.",
  "\t\t\tObjects with lifecycle typically have three main sections:",
  "",
  "\t\t\t* 'metadata' common to all objects",
  "\t\t\t* a 'spec' that represents the desired state",
  "\t\t\t* a 'status' that represents how much of the desired state is reflected on",
  "\t\t\t\tthe cluster at the current time",
  "",
  "\t\t\tObjects that have no state have 'metadata' but may lack a 'spec' or 'status'",
  "\t\t\tsection.",
  "",
  "\t\t\tObjects are divided into those that are namespace scoped (only exist inside",
  "\t\t\tof a namespace) and those that are cluster scoped (exist outside of",
  "\t\t\ta namespace). A namespace scoped resource will be deleted when the namespace",
  "\t\t\tis deleted and cannot be created if the namespace has not yet been created",
  "\t\t\tor is in the process of deletion. Cluster scoped resources are typically",
  "\t\t\tonly accessible to admins - resources like nodes, persistent volumes, and",
  "\t\t\tcluster policy.",
  "",
  "\t\t\tAll objects have a schema that is a combination of the 'kind' and",
  "\t\t\t'apiVersion' fields. This schema is additive only for any given version -",
  "\t\t\tno backwards incompatible changes are allowed without incrementing the",
  "\t\t\tapiVersion. The server will return and accept a number of standard",
  "\t\t\tresponses that share a common schema - for instance, the common",
  "\t\t\terror type is 'metav1.Status' (described below) and will be returned",
  "\t\t\ton any error from the API server.",
  "",
  "\t\t\tThe API is available in multiple serialization formats - the default is",
  "\t\t\tJSON (Accept: application/json and Content-Type: application/json) but",
  "\t\t\tclients may also use YAML (application/yaml) or the native Protobuf",
  "\t\t\tschema (application/vnd.kubernetes.protobuf). Note that the format",
  "\t\t\tof the WATCH API call is slightly different - for JSON it returns newline",
  "\t\t\tdelimited objects while for Protobuf it returns length-delimited frames",
  "\t\t\t(4 bytes in network-order) that contain a 'versioned.Watch' Protobuf",
  "\t\t\tobject.",
  "",
  "\t\t\tSee the OpenShift documentation at https://docs.openshift.org for more",
  "\t\t\tinformation.",
  "\t\t"]

section Model

variable {Scheme Namer GetDefs NameFn Rest Fail : Type}

/-- The heap before package initialisation: every store holds zero values. -/
def Heap.empty [Inhabited GetDefs] [Inhabited NameFn] [Inhabited Rest] :
    Heap GetDefs NameFn Rest :=
  { next := 0
    licenses := fun _ => default
    infos := fun _ => default
    strArrays := fun _ => []
    responses := fun _ => default
    schemes := fun _ => default
    secDefMaps := fun _ => []
    secDefVars := fun _ => none
    configs := fun _ => ⟨default, default, default, default, none, none, none⟩
    schemes3 := fun _ => default
    schemeMaps3 := fun _ => []
    v3configs := fun _ => ⟨none, default, default, default, none, default⟩ }

/-- Allocate a backing array of strings. -/
@[simp]
def Heap.allocStrArray (h : Heap GetDefs NameFn Rest) (v : List String) :
    Heap GetDefs NameFn Rest × Nat :=
  ({ h with strArrays := upd h.strArrays h.next v, next := h.next + 1 }, h.next)

/-- Allocate a `spec.Response`. -/
@[simp]
def Heap.allocResponse (h : Heap GetDefs NameFn Rest) (v : spec.Response) :
    Heap GetDefs NameFn Rest × Nat :=
  ({ h with responses := upd h.responses h.next v, next := h.next + 1 }, h.next)

/-- Allocate a `spec.SecurityScheme`. -/
@[simp]
def Heap.allocScheme (h : Heap GetDefs NameFn Rest) (v : spec.SecurityScheme) :
    Heap GetDefs NameFn Rest × Nat :=
  ({ h with schemes := upd h.schemes h.next v, next := h.next + 1 }, h.next)

/-- Allocate a map `map[string]*spec.SecurityScheme` with the given entries. -/
@[simp]
def Heap.allocSecDefMap (h : Heap GetDefs NameFn Rest) (v : List (String × Ptr)) :
    Heap GetDefs NameFn Rest × Nat :=
  ({ h with secDefMaps := upd h.secDefMaps h.next v, next := h.next + 1 }, h.next)

/-- Allocate a variable of type `spec.SecurityDefinitions` holding the map reference `v`. -/
@[simp]
def Heap.allocSecDefVar (h : Heap GetDefs NameFn Rest) (v : Ptr) :
    Heap GetDefs NameFn Rest × Nat :=
  ({ h with secDefVars := upd h.secDefVars h.next v, next := h.next + 1 }, h.next)

/-- Allocate an `openapicommon.Config`. -/
@[simp]
def Heap.allocConfig (h : Heap GetDefs NameFn Rest) (v : Config GetDefs NameFn) :
    Heap GetDefs NameFn Rest × Nat :=
  ({ h with configs := upd h.configs h.next v, next := h.next + 1 }, h.next)

/-- Allocate a `spec3.SecurityScheme`. -/
@[simp]
def Heap.allocScheme3 (h : Heap GetDefs NameFn Rest) (v : spec3.SecurityScheme) :
    Heap GetDefs NameFn Rest × Nat :=
  ({ h with schemes3 := upd h.schemes3 h.next v, next := h.next + 1 }, h.next)

/-- Allocate a map `map[string]*spec3.SecurityScheme` with the given entries. -/
@[simp]
def Heap.allocSchemeMap3 (h : Heap GetDefs NameFn Rest) (v : List (String × Ptr)) :
    Heap GetDefs NameFn Rest × Nat :=
  ({ h with schemeMaps3 := upd h.schemeMaps3 h.next v, next := h.next + 1 }, h.next)

/-- Allocate an `openapicommon.OpenAPIV3Config`. -/
@[simp]
def Heap.allocV3Config (h : Heap GetDefs NameFn Rest) (v : OpenAPIV3Config GetDefs NameFn Rest) :
    Heap GetDefs NameFn Rest × Nat :=
  ({ h with v3configs := upd h.v3configs h.next v, next := h.next + 1 }, h.next)

/-- Assign the struct `v` through the pointer `a` to an `openapicommon.OpenAPIV3Config`. -/
@[simp]
def Heap.storeV3Config (h : Heap GetDefs NameFn Rest) (a : Nat)
    (v : OpenAPIV3Config GetDefs NameFn Rest) : Heap GetDefs NameFn Rest :=
  { h with v3configs := upd h.v3configs a v }

/-- Go map assignment `m[k] = v` on the `map[string]*spec.SecurityScheme` at `m`. -/
@[simp]
def Heap.assignSecDef (h : Heap GetDefs NameFn Rest) (m : Nat) (k : String) (v : Ptr) :
    Heap GetDefs NameFn Rest :=
  { h with secDefMaps := upd h.secDefMaps m (mapAssign (h.secDefMaps m) k v) }

/-- Go map assignment `m[k] = v` on the `map[string]*spec3.SecurityScheme` at `m`. -/
@[simp]
def Heap.assignScheme3 (h : Heap GetDefs NameFn Rest) (m : Nat) (k : String) (v : Ptr) :
    Heap GetDefs NameFn Rest :=
  { h with schemeMaps3 := upd h.schemeMaps3 m (mapAssign (h.schemeMaps3 m) k v) }

/-- Address of the `spec.License` that the initialiser of `specInfo` allocates. -/
def specLicenseAddr : Nat := 0

/-- The address `&specInfo` of the package-level variable. -/
def specInfoAddr : Nat := 1

/-- The `&spec.License{...}` in the initialiser of `specInfo`. -/
def specLicense : spec.License :=
  { Name := "Apache 2.0 (ASL2.0)"
    URL := "http://www.apache.org/licenses/LICENSE-2.0" }

/-- The initial value of the package-level variable `specInfo`. -/
def specInfo (env : Collaborators Scheme Namer GetDefs NameFn Rest Fail) : spec.Info :=
  { Title := "OpenShift OAuth-related APIs"
    Version := env.versionString
    License := some specLicenseAddr
    Description := env.heredocDoc descriptionLiteral }

/-- Package initialisation: the license is allocated and `specInfo` gets its value. -/
def init [Inhabited GetDefs] [Inhabited NameFn] [Inhabited Rest]
    (env : Collaborators Scheme Namer GetDefs NameFn Rest Fail) : Heap GetDefs NameFn Rest :=
  let h : Heap GetDefs NameFn Rest := Heap.empty
  { h with
    licenses := upd h.licenses specLicenseAddr specLicense
    infos := upd h.infos specInfoAddr (specInfo env)
    next := 2 }

/-- The builder `DefaultOpenAPIConfig`: the heap after the call and the returned pointer. -/
def DefaultOpenAPIConfig (env : Collaborators Scheme Namer GetDefs NameFn Rest Fail)
    (h : Heap GetDefs NameFn Rest) : Heap GetDefs NameFn Rest × Nat :=
  let (h, m) := h.allocSecDefMap []
  let (h, securityDefinitions) := h.allocSecDefVar (some m)
  let (h, s) := h.allocScheme
    { Type_ := "apiKey"
      Name := "authorization"
      In := "header"
      Description := "Bearer Token authentication" }
  let h := h.assignSecDef m "BearerToken" (some s)
  let defNamer :=
    env.NewDefinitionNamer [env.legacyScheme, env.extensionsScheme, env.aggregatorScheme]
  let (h, protocolList) := h.allocStrArray ["https"]
  let (h, ignorePrefixes) := h.allocStrArray
    ["/swaggerapi", "/healthz", "/controllers", "/metrics", "/version/openshift", "/brokers"]
  let (h, defaultResponse) := h.allocResponse { Description := "Default Response." }
  h.allocConfig
    { ProtocolList := ⟨some protocolList, 1, 1⟩
      GetDefinitions := env.GetOpenAPIDefinitions
      IgnorePrefixes := ⟨some ignorePrefixes, 6, 6⟩
      GetDefinitionName := env.GetDefinitionName defNamer
      Info := some specInfoAddr
      DefaultResponse := some defaultResponse
      SecurityDefinitions := some securityDefinitions }

/-- The builder `DefaultOpenAPIV3Config`: a panic, or the heap after the call and the
returned pointer.  The first assignment `cfg.Info = &specInfo` panics when `cfg` is nil. -/
def DefaultOpenAPIV3Config (env : Collaborators Scheme Namer GetDefs NameFn Rest Fail)
    (h : Heap GetDefs NameFn Rest) :
    Except (Failure Fail) (Heap GetDefs NameFn Rest × Nat) :=
  let defNamer :=
    env.NewDefinitionNamer [env.legacyScheme, env.extensionsScheme, env.aggregatorScheme]
  match env.hostDefaultOpenAPIV3Config env.GetOpenAPIDefinitions defNamer h with
  | .error e => .error (.host e)
  | .ok (_, none) => .error .nilPointerDereference
  | .ok (h, some cfg) =>
    let h := h.storeV3Config cfg { (h.v3configs cfg) with Info := some specInfoAddr }
    let (h, ignorePrefixes) := h.allocStrArray
      ["/swaggerapi", "/healthz", "/controllers", "/metrics", "/version/openshift", "/brokers"]
    let h := h.storeV3Config cfg
      { (h.v3configs cfg) with IgnorePrefixes := ⟨some ignorePrefixes, 6, 6⟩ }
    let (h, m) := h.allocSchemeMap3 []
    let (h, s) := h.allocScheme3
      { Type_ := "apiKey"
        Name := "authorization"
        In := "header"
        Description := "Bearer Token authentication" }
    let h := h.assignScheme3 m "BearerToken" (some s)
    let h := h.storeV3Config cfg { (h.v3configs cfg) with SecuritySchemes := some m }
    .ok (h, cfg)

/-- The namer both builders construct: `NewDefinitionNamer` applied to the legacy, the
extensions and the aggregator scheme. -/
abbrev Collaborators.defNamer (env : Collaborators Scheme Namer GetDefs NameFn Rest Fail) : Namer :=
  env.NewDefinitionNamer [env.legacyScheme, env.extensionsScheme, env.aggregatorScheme]

/-- The call `DefaultOpenAPIV3Config` makes to the framework helper, on the heap `h`. -/
abbrev Collaborators.hostDefault (env : Collaborators Scheme Namer GetDefs NameFn Rest Fail)
    (h : Heap GetDefs NameFn Rest) : Except Fail (Heap GetDefs NameFn Rest × Ptr) :=
  env.hostDefaultOpenAPIV3Config env.GetOpenAPIDefinitions env.defNamer h

/-- The package-level variable `specInfo` and its license hold their initial values in `h`. -/
def SpecInfoIntact (env : Collaborators Scheme Namer GetDefs NameFn Rest Fail)
    (h : Heap GetDefs NameFn Rest) : Prop :=
  h.infos specInfoAddr = specInfo env ∧ h.licenses specLicenseAddr = specLicense

instance (env : Collaborators Scheme Namer GetDefs NameFn Rest Fail)
    (h : Heap GetDefs NameFn Rest) : Decidable (SpecInfoIntact env h) :=
  inferInstanceAs (Decidable (_ ∧ _))

/-! ## Reading a result: the contents behind the pointers -/

/-- The elements of a slice. -/
def Heap.sliceElems (h : Heap GetDefs NameFn Rest) (s : Slice) : List String :=
  match s.array with
  | none => []
  | some a => (h.strArrays a).take s.len

/-- What an `*spec.Info` points to, with its license read through the pointer. -/
structure InfoView where
  Title : String
  Version : String
  License : Option spec.License
  Description : String
  deriving DecidableEq, Repr

/-- Contents of the `spec.Info` behind a pointer (`none` for nil). -/
def Heap.viewInfo (h : Heap GetDefs NameFn Rest) (p : Ptr) : Option InfoView :=
  p.map fun a =>
    { Title := (h.infos a).Title
      Version := (h.infos a).Version
      License := (h.infos a).License.map h.licenses
      Description := (h.infos a).Description }

/-- Entries of a `map[string]*spec.SecurityScheme`, each scheme read through its pointer. -/
def Heap.viewSecDefMap (h : Heap GetDefs NameFn Rest) (p : Ptr) :
    List (String × Option spec.SecurityScheme) :=
  match p with
  | none => []
  | some m => (h.secDefMaps m).map fun e => (e.1, e.2.map h.schemes)

/-- Entries of a `map[string]*spec3.SecurityScheme`, each scheme read through its pointer. -/
def Heap.viewSchemeMap3 (h : Heap GetDefs NameFn Rest) (p : Ptr) :
    List (String × Option spec3.SecurityScheme) :=
  match p with
  | none => []
  | some m => (h.schemeMaps3 m).map fun e => (e.1, e.2.map h.schemes3)

/-- The field contents of an `openapicommon.Config`, pointers followed. -/
structure ConfigView (GetDefs NameFn : Type) where
  ProtocolList : List String
  GetDefinitions : GetDefs
  IgnorePrefixes : List String
  GetDefinitionName : NameFn
  Info : Option InfoView
  DefaultResponse : Option spec.Response
  SecurityDefinitions : Option (List (String × Option spec.SecurityScheme))

/-- The field contents of the `openapicommon.Config` at address `c`. -/
def Heap.viewConfig (h : Heap GetDefs NameFn Rest) (c : Nat) : ConfigView GetDefs NameFn :=
  { ProtocolList := h.sliceElems (h.configs c).ProtocolList
    GetDefinitions := (h.configs c).GetDefinitions
    IgnorePrefixes := h.sliceElems (h.configs c).IgnorePrefixes
    GetDefinitionName := (h.configs c).GetDefinitionName
    Info := h.viewInfo (h.configs c).Info
    DefaultResponse := (h.configs c).DefaultResponse.map h.responses
    SecurityDefinitions := (h.configs c).SecurityDefinitions.map fun v =>
      h.viewSecDefMap (h.secDefVars v) }

/-- The field contents of an `openapicommon.OpenAPIV3Config`, pointers followed. -/
structure V3View (GetDefs NameFn Rest : Type) where
  Info : Option InfoView
  IgnorePrefixes : List String
  GetDefinitions : GetDefs
  GetDefinitionName : NameFn
  SecuritySchemes : List (String × Option spec3.SecurityScheme)
  other : Rest

/-- The field contents of the `openapicommon.OpenAPIV3Config` at address `c`. -/
def Heap.viewV3Config (h : Heap GetDefs NameFn Rest) (c : Nat) : V3View GetDefs NameFn Rest :=
  { Info := h.viewInfo (h.v3configs c).Info
    IgnorePrefixes := h.sliceElems (h.v3configs c).IgnorePrefixes
    GetDefinitions := (h.v3configs c).GetDefinitions
    GetDefinitionName := (h.v3configs c).GetDefinitionName
    SecuritySchemes := h.viewSchemeMap3 (h.v3configs c).SecuritySchemes
    other := (h.v3configs c).other }

/-! ## Modifying a heap object -/

/-- A modification of one heap object: the object at address `a` gets the value `v`
(any change of one of its fields, elements or entries is of this form). -/
inductive Write (GetDefs NameFn Rest : Type) where
  | license (a : Nat) (v : spec.License)
  | info (a : Nat) (v : spec.Info)
  | strArray (a : Nat) (v : List String)
  | response (a : Nat) (v : spec.Response)
  | scheme (a : Nat) (v : spec.SecurityScheme)
  | secDefMap (a : Nat) (v : List (String × Ptr))
  | secDefVar (a : Nat) (v : Ptr)
  | config (a : Nat) (v : Config GetDefs NameFn)
  | scheme3 (a : Nat) (v : spec3.SecurityScheme)
  | schemeMap3 (a : Nat) (v : List (String × Ptr))
  | v3config (a : Nat) (v : OpenAPIV3Config GetDefs NameFn Rest)

/-- Carry out a modification. -/
def Heap.write (h : Heap GetDefs NameFn Rest) : Write GetDefs NameFn Rest → Heap GetDefs NameFn Rest
  | .license a v => { h with licenses := upd h.licenses a v }
  | .info a v => { h with infos := upd h.infos a v }
  | .strArray a v => { h with strArrays := upd h.strArrays a v }
  | .response a v => { h with responses := upd h.responses a v }
  | .scheme a v => { h with schemes := upd h.schemes a v }
  | .secDefMap a v => { h with secDefMaps := upd h.secDefMaps a v }
  | .secDefVar a v => { h with secDefVars := upd h.secDefVars a v }
  | .config a v => { h with configs := upd h.configs a v }
  | .scheme3 a v => { h with schemes3 := upd h.schemes3 a v }
  | .schemeMap3 a v => { h with schemeMaps3 := upd h.schemeMaps3 a v }
  | .v3config a v => { h with v3configs := upd h.v3configs a v }

/-- The modification changes the shared specification metadata: a `spec.Info` or a
`spec.License`. -/
def Write.onInfo : Write GetDefs NameFn Rest → Bool
  | .license _ _ => true
  | .info _ _ => true
  | _ => false

/-- The object that `w` modifies is reachable from the `openapicommon.Config` at `c`:
the struct itself, the backing arrays of its two slices, its `Info` and the license of
that, its `DefaultResponse`, the variable behind `SecurityDefinitions`, the map that
variable holds and the schemes the map's entries point to. -/
def Heap.reachableFromConfig (h : Heap GetDefs NameFn Rest) (c : Nat) :
    Write GetDefs NameFn Rest → Bool
  | .config a _ => a == c
  | .strArray a _ =>
    (h.configs c).ProtocolList.array == some a || (h.configs c).IgnorePrefixes.array == some a
  | .info a _ => (h.configs c).Info == some a
  | .license a _ =>
    match (h.configs c).Info with
    | some i => (h.infos i).License == some a
    | none => false
  | .response a _ => (h.configs c).DefaultResponse == some a
  | .secDefVar a _ => (h.configs c).SecurityDefinitions == some a
  | .secDefMap a _ =>
    match (h.configs c).SecurityDefinitions with
    | some v => h.secDefVars v == some a
    | none => false
  | .scheme a _ =>
    match (h.configs c).SecurityDefinitions with
    | some v =>
      match h.secDefVars v with
      | some m => (h.secDefMaps m).any fun e => e.2 == some a
      | none => false
    | none => false
  | _ => false

/-- The object that `w` modifies is reachable from the `openapicommon.OpenAPIV3Config`
at `c` through one of the fields of the model: the struct itself, its `Info` and the
license of that, the backing array of `IgnorePrefixes`, the `SecuritySchemes` map and
the schemes its entries point to. -/
def Heap.reachableFromV3Config (h : Heap GetDefs NameFn Rest) (c : Nat) :
    Write GetDefs NameFn Rest → Bool
  | .v3config a _ => a == c
  | .strArray a _ => (h.v3configs c).IgnorePrefixes.array == some a
  | .info a _ => (h.v3configs c).Info == some a
  | .license a _ =>
    match (h.v3configs c).Info with
    | some i => (h.infos i).License == some a
    | none => false
  | .schemeMap3 a _ => (h.v3configs c).SecuritySchemes == some a
  | .scheme3 a _ =>
    match (h.v3configs c).SecuritySchemes with
    | some m => (h.schemeMaps3 m).any fun e => e.2 == some a
    | none => false
  | _ => false

/-- Every object allocated in `h` is left as it is in `g`, and `g` has allocated at
least as much: what a call that only allocates does to the heap. -/
def Heap.FrameBelow (h g : Heap GetDefs NameFn Rest) : Prop :=
  h.next ≤ g.next ∧
  ∀ a, a < h.next →
    g.licenses a = h.licenses a ∧ g.infos a = h.infos a ∧ g.strArrays a = h.strArrays a ∧
    g.responses a = h.responses a ∧ g.schemes a = h.schemes a ∧
    g.secDefMaps a = h.secDefMaps a ∧ g.secDefVars a = h.secDefVars a ∧
    g.configs a = h.configs a ∧ g.schemes3 a = h.schemes3 a ∧
    g.schemeMaps3 a = h.schemeMaps3 a ∧ g.v3configs a = h.v3configs a

end Model

/-! ## Stub collaborators -/

/-- A stub definitions provider: one schema, named through the reference callback. -/
def stubDefinitions : (String → String) → List (String × String) :=
  fun ref => [("v1.OAuthClient", ref "v1.OAuthClient")]

/-- The method value of a stub namer: the schemes it was built from, and the name. -/
def stubGetDefinitionName (namer : List String) : String → List String × String :=
  fun name => (namer, name)

/-- The default configuration of the stub framework helper: it stores the two
capabilities it is given. -/
def stubDefault (getDefinitions : (String → String) → List (String × String))
    (defNamer : List String) :
    OpenAPIV3Config ((String → String) → List (String × String)) (String → List String × String) Nat :=
  { Info := none
    IgnorePrefixes := ⟨none, 0, 0⟩
    GetDefinitions := getDefinitions
    GetDefinitionName := stubGetDefinitionName defNamer
    SecuritySchemes := none
    other := 42 }

/-- A stub framework helper: it allocates a configuration holding the two capabilities
it is given and returns its address. -/
def stubHost (getDefinitions : (String → String) → List (String × String))
    (defNamer : List String)
    (h : Heap ((String → String) → List (String × String)) (String → List String × String) Nat) :
    Except String
      (Heap ((String → String) → List (String × String)) (String → List String × String) Nat × Ptr) :=
  let r := h.allocV3Config (stubDefault getDefinitions defNamer)
  .ok (r.1, some r.2)

/-- Stub collaborators around a framework helper `host`. -/
def stubEnvWith
    (host : ((String → String) → List (String × String)) → List String →
      Heap ((String → String) → List (String × String)) (String → List String × String) Nat →
      Except String
        (Heap ((String → String) → List (String × String)) (String → List String × String) Nat × Ptr)) :
    Collaborators String (List String) ((String → String) → List (String × String))
      (String → List String × String) Nat String :=
  { versionString := "v4.0.0"
    heredocDoc := fun s => s
    GetOpenAPIDefinitions := stubDefinitions
    legacyScheme := "legacy"
    extensionsScheme := "extensions"
    aggregatorScheme := "aggregator"
    NewDefinitionNamer := fun schemes => schemes
    GetDefinitionName := stubGetDefinitionName
    hostDefaultOpenAPIV3Config := host }

/-- Stub collaborators whose framework helper allocates a configuration. -/
def stubEnv := stubEnvWith stubHost

/-- The heap after the stub framework helper ran on `h`. -/
def stubHeapAfterHost
    (h : Heap ((String → String) → List (String × String)) (String → List String × String) Nat) :
    Heap ((String → String) → List (String × String)) (String → List String × String) Nat :=
  (h.allocV3Config (stubDefault stubDefinitions ["legacy", "extensions", "aggregator"])).1

/-- The heap after `DefaultOpenAPIV3Config` ran on `h` with the stub collaborators. -/
def stubHeapAfterV3
    (h : Heap ((String → String) → List (String × String)) (String → List String × String) Nat) :
    Heap ((String → String) → List (String × String)) (String → List String × String) Nat :=
  match DefaultOpenAPIV3Config stubEnv h with
  | .ok (h1, _) => h1
  | .error _ => h

/-- Stub collaborators whose framework helper panics. -/
def panicEnv := stubEnvWith fun _ _ _ => .error "malformed definitions"

/-! ## Lemmas on the heap -/

section Lemmas

variable {Scheme Namer GetDefs NameFn Rest Fail : Type}

theorem upd_same {α : Type} (f : Nat → α) (a : Nat) (v : α) : upd f a v a = v := by
  simp [upd]

theorem upd_of_eq {α : Type} (f : Nat → α) (a b : Nat) (v : α) (hab : b = a) :
    upd f a v b = v := by
  simp [upd, hab]

theorem upd_of_ne {α : Type} (f : Nat → α) (a b : Nat) (v : α) (hab : b ≠ a) :
    upd f a v b = f b := by
  simp [upd, hab]

theorem upd_upd_same {α : Type} (f : Nat → α) (a : Nat) (v w : α) :
    upd (upd f a v) a w = upd f a w := by
  funext b
  by_cases hb : b = a <;> simp [upd, hb]

/-- Package initialisation leaves `specInfo` and its license with their initial values. -/
theorem init_specInfoIntact [Inhabited GetDefs] [Inhabited NameFn] [Inhabited Rest]
    (env : Collaborators Scheme Namer GetDefs NameFn Rest Fail) :
    SpecInfoIntact env (init env) := by
  simp [SpecInfoIntact, init, upd]

/-- A call of `DefaultOpenAPIConfig` leaves `specInfo` and its license as they are. -/
theorem v2_preserves_specInfo (env : Collaborators Scheme Namer GetDefs NameFn Rest Fail)
    (h : Heap GetDefs NameFn Rest) (hi : SpecInfoIntact env h) :
    SpecInfoIntact env (DefaultOpenAPIConfig env h).1 := by
  obtain ⟨h1, h2⟩ := hi
  simp [SpecInfoIntact, DefaultOpenAPIConfig, h1, h2]

/-- What a successful call of `DefaultOpenAPIV3Config` did: the framework helper returned
`c` on some heap `g`, and the result heap is `g` with three new objects and the struct at
`c` overridden in three fields. -/
theorem v3_result (env : Collaborators Scheme Namer GetDefs NameFn Rest Fail)
    (h h1 : Heap GetDefs NameFn Rest) (c : Nat)
    (hv : DefaultOpenAPIV3Config env h = .ok (h1, c)) :
    ∃ g, env.hostDefault h = .ok (g, some c) ∧
      h1.next = g.next + 3 ∧
      h1.v3configs = upd g.v3configs c
        { (g.v3configs c) with
          Info := some specInfoAddr
          IgnorePrefixes := ⟨some g.next, 6, 6⟩
          SecuritySchemes := some (g.next + 1) } ∧
      h1.strArrays = upd g.strArrays g.next
        ["/swaggerapi", "/healthz", "/controllers", "/metrics", "/version/openshift", "/brokers"] ∧
      h1.schemeMaps3 = upd g.schemeMaps3 (g.next + 1) [("BearerToken", some (g.next + 2))] ∧
      h1.schemes3 = upd g.schemes3 (g.next + 2)
        ⟨"apiKey", "authorization", "header", "Bearer Token authentication"⟩ ∧
      h1.infos = g.infos ∧ h1.licenses = g.licenses := by
  rcases hr : env.hostDefault h with e | ⟨g, _ | c'⟩
  · simp only [Collaborators.hostDefault, Collaborators.defNamer] at hr
    simp only [DefaultOpenAPIV3Config, hr] at hv
    cases hv
  · simp only [Collaborators.hostDefault, Collaborators.defNamer] at hr
    simp only [DefaultOpenAPIV3Config, hr] at hv
    cases hv
  · simp only [Collaborators.hostDefault, Collaborators.defNamer] at hr
    simp only [DefaultOpenAPIV3Config, hr] at hv
    cases hv
    refine ⟨g, rfl, ?_, ?_, ?_, ?_, ?_, ?_, ?_⟩
    · simp
    · funext b
      by_cases hb : b = c <;> simp [upd, hb]
    · simp
    · simp [mapAssign, Nat.add_assoc, upd_upd_same, upd_same]
    · simp [Nat.add_assoc]
    · simp
    · simp

/-- A successful call of `DefaultOpenAPIV3Config` leaves `specInfo` and its license as
the framework helper left them. -/
theorem v3_preserves_specInfo (env : Collaborators Scheme Namer GetDefs NameFn Rest Fail)
    (h h1 : Heap GetDefs NameFn Rest) (c : Nat)
    (hv : DefaultOpenAPIV3Config env h = .ok (h1, c)) :
    ∃ g, env.hostDefault h = .ok (g, some c) ∧ (SpecInfoIntact env g → SpecInfoIntact env h1) := by
  obtain ⟨g, hg, -, -, -, -, -, e1, e2⟩ := v3_result env h h1 c hv
  exact ⟨g, hg, fun hi => ⟨by rw [e1]; exact hi.1, by rw [e2]; exact hi.2⟩⟩

/-- The stub framework helper only allocates. -/
theorem stubHeapAfterHost_frame
    (h : Heap ((String → String) → List (String × String)) (String → List String × String) Nat) :
    h.FrameBelow (stubHeapAfterHost h) := by
  refine ⟨by simp [stubHeapAfterHost], ?_⟩
  intro a ha
  have hne : a ≠ h.next := by omega
  simp [stubHeapAfterHost, upd, hne]

end Lemmas

/-! ## The claims -/

section Claims

variable {Scheme Namer GetDefs NameFn Rest Fail : Type}

/-- C2: when the framework helper returns the configuration at `cfg` on the heap `h1`,
`DefaultOpenAPIV3Config` returns the same pointer, and the struct it points to is the
helper's with `Info`, `IgnorePrefixes` and `SecuritySchemes` overridden: `Info` is
`&specInfo`, the slice and the map are new, and every other field (the two capabilities
and all the rest) is the helper's.  No other configuration struct is touched. -/
theorem v3_overrides_exactly_three_fields
    (env : Collaborators Scheme Namer GetDefs NameFn Rest Fail)
    (h h1 : Heap GetDefs NameFn Rest) (cfg : Nat)
    (hhost : env.hostDefault h = .ok (h1, some cfg)) :
    ∃ h2, DefaultOpenAPIV3Config env h = .ok (h2, cfg) ∧
      h2.v3configs cfg =
        { (h1.v3configs cfg) with
          Info := some specInfoAddr
          IgnorePrefixes := ⟨some h1.next, 6, 6⟩
          SecuritySchemes := some (h1.next + 1) } ∧
      (h2.v3configs cfg).GetDefinitions = (h1.v3configs cfg).GetDefinitions ∧
      (h2.v3configs cfg).GetDefinitionName = (h1.v3configs cfg).GetDefinitionName ∧
      (h2.v3configs cfg).other = (h1.v3configs cfg).other ∧
      (∀ b, b ≠ cfg → h2.v3configs b = h1.v3configs b) ∧
      h2.configs = h1.configs := by
  simp only [Collaborators.hostDefault, Collaborators.defNamer] at hhost
  simp only [DefaultOpenAPIV3Config, hhost]
  refine ⟨_, rfl, ?_, ?_, ?_, ?_, ?_, ?_⟩
  · simp [upd]
  · simp [upd]
  · simp [upd]
  · simp [upd]
  · intro b hb
    simp [upd, hb]
  · simp

/-- Witness of C2 on the stub collaborators, from the initial heap. -/
theorem v3_overrides_exactly_three_fields_witness :
    stubEnv.hostDefault (init stubEnv) = .ok (stubHeapAfterHost (init stubEnv), some 2) ∧
    ∃ h2, DefaultOpenAPIV3Config stubEnv (init stubEnv) = .ok (h2, 2) ∧
      h2.v3configs 2 =
        { ((stubHeapAfterHost (init stubEnv)).v3configs 2) with
          Info := some specInfoAddr
          IgnorePrefixes := ⟨some (stubHeapAfterHost (init stubEnv)).next, 6, 6⟩
          SecuritySchemes := some ((stubHeapAfterHost (init stubEnv)).next + 1) } ∧
      (h2.v3configs 2).GetDefinitions = ((stubHeapAfterHost (init stubEnv)).v3configs 2).GetDefinitions ∧
      (h2.v3configs 2).GetDefinitionName =
        ((stubHeapAfterHost (init stubEnv)).v3configs 2).GetDefinitionName ∧
      (h2.v3configs 2).other = ((stubHeapAfterHost (init stubEnv)).v3configs 2).other ∧
      (∀ b, b ≠ 2 → h2.v3configs b = (stubHeapAfterHost (init stubEnv)).v3configs b) ∧
      h2.configs = (stubHeapAfterHost (init stubEnv)).configs :=
  ⟨rfl, v3_overrides_exactly_three_fields stubEnv (init stubEnv) _ 2 rfl⟩

/-- C3: the security-scheme mapping of either result has the single key "BearerToken",
and the scheme under it has type "apiKey", location "header" and name "authorization".
For `DefaultOpenAPIConfig` this holds on every heap; for `DefaultOpenAPIV3Config`
whenever the framework helper returns a configuration. -/
theorem securitySchemes_single_bearerToken
    (env : Collaborators Scheme Namer GetDefs NameFn Rest Fail) (h : Heap GetDefs NameFn Rest) :
    (∃ s, ((DefaultOpenAPIConfig env h).1.viewConfig
          (DefaultOpenAPIConfig env h).2).SecurityDefinitions = some [("BearerToken", some s)] ∧
        s.Type_ = "apiKey" ∧ s.In = "header" ∧ s.Name = "authorization") ∧
    (∀ h1 cfg, env.hostDefault h = .ok (h1, some cfg) →
      ∃ h2 s, DefaultOpenAPIV3Config env h = .ok (h2, cfg) ∧
        (h2.viewV3Config cfg).SecuritySchemes = [("BearerToken", some s)] ∧
        s.Type_ = "apiKey" ∧ s.In = "header" ∧ s.Name = "authorization") := by
  constructor
  · refine ⟨⟨"apiKey", "authorization", "header", "Bearer Token authentication"⟩, ?_, rfl, rfl, rfl⟩
    simp [DefaultOpenAPIConfig, Heap.viewConfig, Heap.viewSecDefMap, upd, mapAssign]
  · intro h1 cfg hhost
    simp only [Collaborators.hostDefault, Collaborators.defNamer] at hhost
    simp only [DefaultOpenAPIV3Config, hhost]
    refine ⟨_, ⟨"apiKey", "authorization", "header", "Bearer Token authentication"⟩,
      rfl, ?_, rfl, rfl, rfl⟩
    simp [Heap.viewV3Config, Heap.viewSchemeMap3, upd, mapAssign]

/-- Witness of C3 on the stub collaborators, from the initial heap. -/
theorem securitySchemes_single_bearerToken_witness :
    stubEnv.hostDefault (init stubEnv) = .ok (stubHeapAfterHost (init stubEnv), some 2) ∧
    ∃ h2 s, DefaultOpenAPIV3Config stubEnv (init stubEnv) = .ok (h2, 2) ∧
      (h2.viewV3Config 2).SecuritySchemes = [("BearerToken", some s)] ∧
      s.Type_ = "apiKey" ∧ s.In = "header" ∧ s.Name = "authorization" :=
  ⟨rfl, (securitySchemes_single_bearerToken stubEnv (init stubEnv)).2 _ 2 rfl⟩

/-- C4: the elements of `IgnorePrefixes` of either result are exactly the six strings
"/swaggerapi", "/healthz", "/controllers", "/metrics", "/version/openshift" and
"/brokers" (in this order, each once). -/
theorem ignorePrefixes_exactly_six
    (env : Collaborators Scheme Namer GetDefs NameFn Rest Fail) (h : Heap GetDefs NameFn Rest) :
    ((∀ p, p ∈ ((DefaultOpenAPIConfig env h).1.viewConfig
          (DefaultOpenAPIConfig env h).2).IgnorePrefixes ↔
        p = "/swaggerapi" ∨ p = "/healthz" ∨ p = "/controllers" ∨ p = "/metrics" ∨
          p = "/version/openshift" ∨ p = "/brokers") ∧
      ((DefaultOpenAPIConfig env h).1.viewConfig (DefaultOpenAPIConfig env h).2).IgnorePrefixes =
        ["/swaggerapi", "/healthz", "/controllers", "/metrics", "/version/openshift", "/brokers"]) ∧
    (∀ h1 cfg, env.hostDefault h = .ok (h1, some cfg) →
      ∃ h2, DefaultOpenAPIV3Config env h = .ok (h2, cfg) ∧
        (∀ p, p ∈ (h2.viewV3Config cfg).IgnorePrefixes ↔
          p = "/swaggerapi" ∨ p = "/healthz" ∨ p = "/controllers" ∨ p = "/metrics" ∨
            p = "/version/openshift" ∨ p = "/brokers") ∧
        (h2.viewV3Config cfg).IgnorePrefixes =
          ["/swaggerapi", "/healthz", "/controllers", "/metrics", "/version/openshift",
            "/brokers"]) := by
  have hv2 : ((DefaultOpenAPIConfig env h).1.viewConfig (DefaultOpenAPIConfig env h).2).IgnorePrefixes =
      ["/swaggerapi", "/healthz", "/controllers", "/metrics", "/version/openshift", "/brokers"] := by
    simp [DefaultOpenAPIConfig, Heap.viewConfig, Heap.sliceElems, upd]
  refine ⟨⟨?_, hv2⟩, ?_⟩
  · intro p
    rw [hv2]
    simp
  · intro h1 cfg hhost
    simp only [Collaborators.hostDefault, Collaborators.defNamer] at hhost
    simp only [DefaultOpenAPIV3Config, hhost]
    refine ⟨_, rfl, ?_⟩
    simp [Heap.viewV3Config, Heap.sliceElems, upd]

/-- Witness of C4 on the stub collaborators, from the initial heap. -/
theorem ignorePrefixes_exactly_six_witness :
    stubEnv.hostDefault (init stubEnv) = .ok (stubHeapAfterHost (init stubEnv), some 2) ∧
    ∃ h2, DefaultOpenAPIV3Config stubEnv (init stubEnv) = .ok (h2, 2) ∧
      (∀ p, p ∈ (h2.viewV3Config 2).IgnorePrefixes ↔
        p = "/swaggerapi" ∨ p = "/healthz" ∨ p = "/controllers" ∨ p = "/metrics" ∨
          p = "/version/openshift" ∨ p = "/brokers") ∧
      (h2.viewV3Config 2).IgnorePrefixes =
        ["/swaggerapi", "/healthz", "/controllers", "/metrics", "/version/openshift", "/brokers"] :=
  ⟨rfl, (ignorePrefixes_exactly_six stubEnv (init stubEnv)).2 _ 2 rfl⟩

/-- C5: for every collaborator set (so for every version string), as long as the
package-level `specInfo` holds its initial value, the `Info` of either result has
the title "OpenShift OAuth-related APIs" and a license, named "Apache 2.0 (ASL2.0)".
For `DefaultOpenAPIV3Config` the variable is read after the framework helper ran. -/
theorem info_title_and_license
    (env : Collaborators Scheme Namer GetDefs NameFn Rest Fail) (h : Heap GetDefs NameFn Rest) :
    (SpecInfoIntact env h →
      ∃ i l, ((DefaultOpenAPIConfig env h).1.viewConfig (DefaultOpenAPIConfig env h).2).Info = some i ∧
        i.Title = "OpenShift OAuth-related APIs" ∧ i.Version = env.versionString ∧
        i.License = some l ∧ l.Name = "Apache 2.0 (ASL2.0)") ∧
    (∀ h1 cfg, env.hostDefault h = .ok (h1, some cfg) → SpecInfoIntact env h1 →
      ∃ h2 i l, DefaultOpenAPIV3Config env h = .ok (h2, cfg) ∧
        (h2.viewV3Config cfg).Info = some i ∧
        i.Title = "OpenShift OAuth-related APIs" ∧ i.Version = env.versionString ∧
        i.License = some l ∧ l.Name = "Apache 2.0 (ASL2.0)") := by
  constructor
  · rintro ⟨hi, hl⟩
    refine ⟨⟨"OpenShift OAuth-related APIs", env.versionString, some specLicense,
      env.heredocDoc descriptionLiteral⟩, specLicense, ?_, rfl, rfl, rfl, rfl⟩
    simp [DefaultOpenAPIConfig, Heap.viewConfig, Heap.viewInfo, upd, hi, hl, specInfo]
  · rintro h1 cfg hhost ⟨hi, hl⟩
    simp only [Collaborators.hostDefault, Collaborators.defNamer] at hhost
    simp only [DefaultOpenAPIV3Config, hhost]
    refine ⟨_, ⟨"OpenShift OAuth-related APIs", env.versionString, some specLicense,
      env.heredocDoc descriptionLiteral⟩, specLicense, rfl, ?_, rfl, rfl, rfl, rfl⟩
    simp [Heap.viewV3Config, Heap.viewInfo, upd, hi, hl, specInfo]

/-- Witness of C5 on the stub collaborators, from the initial heap. -/
theorem info_title_and_license_witness :
    SpecInfoIntact stubEnv (init stubEnv) ∧
    stubEnv.hostDefault (init stubEnv) = .ok (stubHeapAfterHost (init stubEnv), some 2) ∧
    SpecInfoIntact stubEnv (stubHeapAfterHost (init stubEnv)) ∧
    (∃ i l, ((DefaultOpenAPIConfig stubEnv (init stubEnv)).1.viewConfig
        (DefaultOpenAPIConfig stubEnv (init stubEnv)).2).Info = some i ∧
      i.Title = "OpenShift OAuth-related APIs" ∧ i.Version = "v4.0.0" ∧
      i.License = some l ∧ l.Name = "Apache 2.0 (ASL2.0)") ∧
    ∃ h2 i l, DefaultOpenAPIV3Config stubEnv (init stubEnv) = .ok (h2, 2) ∧
      (h2.viewV3Config 2).Info = some i ∧
      i.Title = "OpenShift OAuth-related APIs" ∧ i.Version = "v4.0.0" ∧
      i.License = some l ∧ l.Name = "Apache 2.0 (ASL2.0)" :=
  ⟨⟨rfl, rfl⟩, rfl, ⟨rfl, rfl⟩,
    (info_title_and_license stubEnv (init stubEnv)).1 ⟨rfl, rfl⟩,
    (info_title_and_license stubEnv (init stubEnv)).2 _ 2 rfl ⟨rfl, rfl⟩⟩

/-- C6: on every heap the configuration `DefaultOpenAPIConfig` returns has the protocol
list ["https"], a default response with description "Default Response.", the generated
definitions provider as `GetDefinitions`, and as `GetDefinitionName` the method value of
the namer built from the legacy, the extensions and the aggregator scheme, in this order. -/
theorem v2_protocols_response_capabilities
    (env : Collaborators Scheme Namer GetDefs NameFn Rest Fail) (h : Heap GetDefs NameFn Rest) :
    ((DefaultOpenAPIConfig env h).1.viewConfig (DefaultOpenAPIConfig env h).2).ProtocolList =
      ["https"] ∧
    ((DefaultOpenAPIConfig env h).1.viewConfig (DefaultOpenAPIConfig env h).2).DefaultResponse =
      some { Description := "Default Response." } ∧
    ((DefaultOpenAPIConfig env h).1.viewConfig (DefaultOpenAPIConfig env h).2).GetDefinitions =
      env.GetOpenAPIDefinitions ∧
    ((DefaultOpenAPIConfig env h).1.viewConfig (DefaultOpenAPIConfig env h).2).GetDefinitionName =
      env.GetDefinitionName (env.NewDefinitionNamer
        [env.legacyScheme, env.extensionsScheme, env.aggregatorScheme]) := by
  simp [DefaultOpenAPIConfig, Heap.viewConfig, Heap.sliceElems, upd]

/-- C7: when the framework helper returns a configuration that stores the definitions
provider and the method value of the namer it was given, the configuration
`DefaultOpenAPIV3Config` returns holds that provider and that method value. -/
theorem v3_capabilities_passed_through
    (env : Collaborators Scheme Namer GetDefs NameFn Rest Fail)
    (h h1 : Heap GetDefs NameFn Rest) (cfg : Nat)
    (hhost : env.hostDefault h = .ok (h1, some cfg))
    (hp : (h1.v3configs cfg).GetDefinitions = env.GetOpenAPIDefinitions)
    (hn : (h1.v3configs cfg).GetDefinitionName = env.GetDefinitionName env.defNamer) :
    ∃ h2, DefaultOpenAPIV3Config env h = .ok (h2, cfg) ∧
      (h2.viewV3Config cfg).GetDefinitions = env.GetOpenAPIDefinitions ∧
      (h2.viewV3Config cfg).GetDefinitionName = env.GetDefinitionName env.defNamer := by
  simp only [Collaborators.hostDefault, Collaborators.defNamer] at hhost
  simp only [DefaultOpenAPIV3Config, hhost]
  refine ⟨_, rfl, ?_, ?_⟩
  · simp [Heap.viewV3Config, upd, hp]
  · simp [Heap.viewV3Config, upd, hn]

/-- Witness of C7 on the stub collaborators, from the initial heap. -/
theorem v3_capabilities_passed_through_witness :
    stubEnv.hostDefault (init stubEnv) = .ok (stubHeapAfterHost (init stubEnv), some 2) ∧
    ((stubHeapAfterHost (init stubEnv)).v3configs 2).GetDefinitions = stubDefinitions ∧
    ((stubHeapAfterHost (init stubEnv)).v3configs 2).GetDefinitionName =
      stubGetDefinitionName ["legacy", "extensions", "aggregator"] ∧
    ∃ h2, DefaultOpenAPIV3Config stubEnv (init stubEnv) = .ok (h2, 2) ∧
      (h2.viewV3Config 2).GetDefinitions = stubDefinitions ∧
      (h2.viewV3Config 2).GetDefinitionName =
        stubGetDefinitionName ["legacy", "extensions", "aggregator"] :=
  ⟨rfl, rfl, rfl, v3_capabilities_passed_through stubEnv (init stubEnv) _ 2 rfl rfl rfl⟩

/-- C10: `DefaultOpenAPIV3Config` adds no failure of its own.  For a framework helper
that, when it returns, returns a pointer to a configuration (as
`genericapiserver.DefaultOpenAPIV3Config` does, which returns the address of a struct it
builds), the builder fails if and only if the helper fails, every failure of the builder
is the helper's failure passed on as it is, and whenever the helper returns a
configuration the builder returns that pointer, without any check that could reject it. -/
theorem v3_fails_iff_host_fails
    (env : Collaborators Scheme Namer GetDefs NameFn Rest Fail) (h : Heap GetDefs NameFn Rest)
    (hcfg : ∀ h1, env.hostDefault h ≠ .ok (h1, none)) :
    ((∃ e, DefaultOpenAPIV3Config env h = .error e) ↔ ∃ e, env.hostDefault h = .error e) ∧
    (∀ e, env.hostDefault h = .error e → DefaultOpenAPIV3Config env h = .error (.host e)) ∧
    (∀ e, DefaultOpenAPIV3Config env h = .error e →
      ∃ e0, env.hostDefault h = .error e0 ∧ e = .host e0) ∧
    (∀ h1 cfg, env.hostDefault h = .ok (h1, some cfg) →
      ∃ h2, DefaultOpenAPIV3Config env h = .ok (h2, cfg)) := by
  simp only [Collaborators.hostDefault, Collaborators.defNamer] at hcfg ⊢
  have hfail : ∀ e, DefaultOpenAPIV3Config env h = .error e →
      ∃ e0, env.hostDefaultOpenAPIV3Config env.GetOpenAPIDefinitions
        (env.NewDefinitionNamer [env.legacyScheme, env.extensionsScheme, env.aggregatorScheme])
        h = .error e0 ∧ e = .host e0 := by
    intro e he
    rcases hr : env.hostDefaultOpenAPIV3Config env.GetOpenAPIDefinitions
      (env.NewDefinitionNamer [env.legacyScheme, env.extensionsScheme, env.aggregatorScheme])
      h with e0 | ⟨h1, _ | cfg⟩
    · simp only [DefaultOpenAPIV3Config, hr] at he
      cases he
      exact ⟨e0, rfl, rfl⟩
    · exact absurd hr (hcfg h1)
    · simp only [DefaultOpenAPIV3Config, hr] at he
      cases he
  refine ⟨?_, ?_, hfail, ?_⟩
  · constructor
    · rintro ⟨e, he⟩
      obtain ⟨e0, h0, -⟩ := hfail e he
      exact ⟨e0, h0⟩
    · rintro ⟨e, he⟩
      exact ⟨.host e, by simp only [DefaultOpenAPIV3Config, he]⟩
  · intro e he
    simp only [DefaultOpenAPIV3Config, he]
  · intro h1 cfg he
    simp only [DefaultOpenAPIV3Config, he]
    exact ⟨_, rfl⟩

/-- Witness of C10 on the stub collaborators, from the initial heap: the stub helper
returns the configuration at 2 and the builder returns it; the helper that panics makes the
builder fail with that panic. -/
theorem v3_fails_iff_host_fails_witness :
    (∀ h1, stubEnv.hostDefault (init stubEnv) ≠ .ok (h1, none)) ∧
    (stubEnv.hostDefault (init stubEnv) = .ok (stubHeapAfterHost (init stubEnv), some 2) ∧
      ∃ h2, DefaultOpenAPIV3Config stubEnv (init stubEnv) = .ok (h2, 2)) ∧
    (∀ h1, panicEnv.hostDefault (init panicEnv) ≠ .ok (h1, none)) ∧
    (panicEnv.hostDefault (init panicEnv) = .error "malformed definitions" ∧
      DefaultOpenAPIV3Config panicEnv (init panicEnv) = .error (.host "malformed definitions")) ∧
    ((∃ e, DefaultOpenAPIV3Config panicEnv (init panicEnv) = .error e) ↔
      ∃ e, panicEnv.hostDefault (init panicEnv) = .error e) := by
  have hs : ∀ h1, stubEnv.hostDefault (init stubEnv) ≠ .ok (h1, none) := by
    intro h1 he
    have e : (Except.ok (stubHeapAfterHost (init stubEnv), some 2) : Except String _) =
        .ok (h1, none) := Eq.trans rfl he
    cases e
  have hp : ∀ h1, panicEnv.hostDefault (init panicEnv) ≠ .ok (h1, none) := by
    intro h1 he
    have e : (Except.error "malformed definitions" : Except String _) = .ok (h1, none) :=
      Eq.trans rfl he
    cases e
  exact ⟨hs, ⟨rfl, (v3_fails_iff_host_fails stubEnv (init stubEnv) hs).2.2.2 _ 2 rfl⟩,
    hp, ⟨rfl, (v3_fails_iff_host_fails panicEnv (init panicEnv) hp).2.1 _ rfl⟩,
    (v3_fails_iff_host_fails panicEnv (init panicEnv) hp).1⟩

/-- C8: the two builders install the same fixed values.  The `Info` of a
`DefaultOpenAPIConfig` result and of a `DefaultOpenAPIV3Config` result is the same pointer
`&specInfo`, so in any one heap both read the same title, version, license and
description, and where the variable holds its initial value these are the initial ones;
the elements of the two `IgnorePrefixes` are equal, in
the same order; and the schemes under "BearerToken" agree in type, name, location and
description. -/
theorem v2_v3_same_fixed_values
    (env : Collaborators Scheme Namer GetDefs NameFn Rest Fail)
    (h k g : Heap GetDefs NameFn Rest) (cfg : Nat)
    (hhost : env.hostDefault k = .ok (g, some cfg)) :
    ∃ h2, DefaultOpenAPIV3Config env k = .ok (h2, cfg) ∧
      ((DefaultOpenAPIConfig env h).1.configs (DefaultOpenAPIConfig env h).2).Info =
        some specInfoAddr ∧
      (h2.v3configs cfg).Info = some specInfoAddr ∧
      (∀ m : Heap GetDefs NameFn Rest,
        m.viewInfo ((DefaultOpenAPIConfig env h).1.configs (DefaultOpenAPIConfig env h).2).Info =
          m.viewInfo (h2.v3configs cfg).Info) ∧
      (SpecInfoIntact env h → SpecInfoIntact env g →
        ((DefaultOpenAPIConfig env h).1.viewConfig (DefaultOpenAPIConfig env h).2).Info =
          (h2.viewV3Config cfg).Info) ∧
      ((DefaultOpenAPIConfig env h).1.viewConfig (DefaultOpenAPIConfig env h).2).IgnorePrefixes =
        (h2.viewV3Config cfg).IgnorePrefixes ∧
      ∃ s2 s3,
        ((DefaultOpenAPIConfig env h).1.viewConfig (DefaultOpenAPIConfig env h).2).SecurityDefinitions =
          some [("BearerToken", some s2)] ∧
        (h2.viewV3Config cfg).SecuritySchemes = [("BearerToken", some s3)] ∧
        s2.Type_ = s3.Type_ ∧ s2.Name = s3.Name ∧ s2.In = s3.In ∧
        s2.Description = s3.Description := by
  simp only [Collaborators.hostDefault, Collaborators.defNamer] at hhost
  simp only [DefaultOpenAPIV3Config, hhost]
  refine ⟨_, rfl, ?_, ?_, ?_, ?_, ?_,
    ⟨"apiKey", "authorization", "header", "Bearer Token authentication"⟩,
    ⟨"apiKey", "authorization", "header", "Bearer Token authentication"⟩, ?_, ?_, rfl, rfl, rfl, rfl⟩
  · simp [DefaultOpenAPIConfig, upd]
  · simp [upd]
  · intro m
    simp [DefaultOpenAPIConfig, upd]
  · rintro ⟨hi, hl⟩ ⟨gi, gl⟩
    simp [DefaultOpenAPIConfig, Heap.viewConfig, Heap.viewV3Config, Heap.viewInfo, upd, hi, hl, gi,
      gl, specInfo]
  · simp [DefaultOpenAPIConfig, Heap.viewConfig, Heap.viewV3Config, Heap.sliceElems, upd]
  · simp [DefaultOpenAPIConfig, Heap.viewConfig, Heap.viewSecDefMap, upd, mapAssign]
  · simp [Heap.viewV3Config, Heap.viewSchemeMap3, upd, mapAssign]

/-- Witness of C8 on the stub collaborators: `DefaultOpenAPIConfig` on the initial heap,
`DefaultOpenAPIV3Config` on the heap it leaves. -/
theorem v2_v3_same_fixed_values_witness :
    stubEnv.hostDefault (DefaultOpenAPIConfig stubEnv (init stubEnv)).1 =
      .ok (stubHeapAfterHost (DefaultOpenAPIConfig stubEnv (init stubEnv)).1, some 9) ∧
    SpecInfoIntact stubEnv (init stubEnv) ∧
    SpecInfoIntact stubEnv (stubHeapAfterHost (DefaultOpenAPIConfig stubEnv (init stubEnv)).1) ∧
    ∃ h2, DefaultOpenAPIV3Config stubEnv (DefaultOpenAPIConfig stubEnv (init stubEnv)).1 =
        .ok (h2, 9) ∧
      ((DefaultOpenAPIConfig stubEnv (init stubEnv)).1.viewConfig 8).Info =
        (h2.viewV3Config 9).Info ∧
      ((DefaultOpenAPIConfig stubEnv (init stubEnv)).1.viewConfig 8).IgnorePrefixes =
        (h2.viewV3Config 9).IgnorePrefixes := by
  obtain ⟨h2, hv, -, -, -, hinfo, hpre, -⟩ :=
    v2_v3_same_fixed_values stubEnv (init stubEnv) (DefaultOpenAPIConfig stubEnv (init stubEnv)).1
      _ 9 rfl
  exact ⟨rfl, ⟨rfl, rfl⟩, ⟨rfl, rfl⟩, h2, hv, hinfo ⟨rfl, rfl⟩ ⟨rfl, rfl⟩, hpre⟩

/-- C9: each builder, with its collaborators fixed, returns the same field contents on
every call.  Two successive calls of `DefaultOpenAPIConfig` from any heap return
configurations with equal contents (and the second call leaves the contents of the first
as they were).  Two successive calls of `DefaultOpenAPIV3Config` return configurations
with equal contents when the framework helper, on the second call, only allocates and
returns the same defaults (capabilities and remaining fields) as on the first. -/
theorem builders_deterministic
    (env : Collaborators Scheme Namer GetDefs NameFn Rest Fail) (h : Heap GetDefs NameFn Rest) :
    ((DefaultOpenAPIConfig env (DefaultOpenAPIConfig env h).1).1.viewConfig
          (DefaultOpenAPIConfig env h).2 =
        (DefaultOpenAPIConfig env (DefaultOpenAPIConfig env h).1).1.viewConfig
          (DefaultOpenAPIConfig env (DefaultOpenAPIConfig env h).1).2 ∧
      (DefaultOpenAPIConfig env (DefaultOpenAPIConfig env h).1).1.viewConfig
          (DefaultOpenAPIConfig env h).2 =
        (DefaultOpenAPIConfig env h).1.viewConfig (DefaultOpenAPIConfig env h).2) ∧
    (∀ h1 g2 c1 c2, DefaultOpenAPIV3Config env h = .ok (h1, c1) →
      env.hostDefault h1 = .ok (g2, some c2) → c1 < h1.next → h1.FrameBelow g2 →
      (g2.v3configs c2).GetDefinitions = (h1.v3configs c1).GetDefinitions →
      (g2.v3configs c2).GetDefinitionName = (h1.v3configs c1).GetDefinitionName →
      (g2.v3configs c2).other = (h1.v3configs c1).other →
      ∃ h2, DefaultOpenAPIV3Config env h1 = .ok (h2, c2) ∧
        h2.viewV3Config c1 = h2.viewV3Config c2) := by
  refine ⟨⟨?_, ?_⟩, ?_⟩
  · simp [DefaultOpenAPIConfig, Heap.viewConfig, Heap.sliceElems, Heap.viewInfo,
      Heap.viewSecDefMap, upd, mapAssign, Nat.add_assoc]
  · simp [DefaultOpenAPIConfig, Heap.viewConfig, Heap.sliceElems, Heap.viewInfo,
      Heap.viewSecDefMap, upd, mapAssign, Nat.add_assoc]
  · intro h1 g2 c1 c2 hv1 hhost2 hc1 hframe hgd hgn hother
    obtain ⟨g1, -, hnext, e1, e2, e3, e4, -, -⟩ := v3_result env h h1 c1 hv1
    obtain ⟨hle, hfr⟩ := hframe
    have f1 := (hfr c1 hc1).2.2.2.2.2.2.2.2.2.2
    have f2 := (hfr g1.next (by omega)).2.2.1
    have f3 := (hfr (g1.next + 1) (by omega)).2.2.2.2.2.2.2.2.2.1
    have f4 := (hfr (g1.next + 2) (by omega)).2.2.2.2.2.2.2.2.1
    rw [e1] at f1 hgd hgn hother
    rw [e2] at f2
    rw [e3] at f3
    rw [e4] at f4
    simp only [upd_same] at f1 f2 f3 f4 hgd hgn hother
    simp only [Collaborators.hostDefault, Collaborators.defNamer] at hhost2
    simp only [DefaultOpenAPIV3Config, hhost2]
    refine ⟨_, rfl, ?_⟩
    by_cases hc : c1 = c2
    · rw [hc]
    · simp (disch := omega) [Heap.viewV3Config, Heap.sliceElems, Heap.viewInfo,
        Heap.viewSchemeMap3, mapAssign, upd_same, upd_of_ne, f1, f2, f3, f4, hgd, hgn, hother]

/-- Witness of C9 on the stub collaborators: two calls of `DefaultOpenAPIV3Config` from
the initial heap return the configurations at 2 and 6. -/
theorem builders_deterministic_witness :
    DefaultOpenAPIV3Config stubEnv (init stubEnv) = .ok (stubHeapAfterV3 (init stubEnv), 2) ∧
    stubEnv.hostDefault (stubHeapAfterV3 (init stubEnv)) =
      .ok (stubHeapAfterHost (stubHeapAfterV3 (init stubEnv)), some 6) ∧
    2 < (stubHeapAfterV3 (init stubEnv)).next ∧
    (stubHeapAfterV3 (init stubEnv)).FrameBelow
      (stubHeapAfterHost (stubHeapAfterV3 (init stubEnv))) ∧
    ∃ h2, DefaultOpenAPIV3Config stubEnv (stubHeapAfterV3 (init stubEnv)) = .ok (h2, 6) ∧
      h2.viewV3Config 2 = h2.viewV3Config 6 :=
  ⟨rfl, rfl, by decide, stubHeapAfterHost_frame _,
    (builders_deterministic stubEnv (init stubEnv)).2 _ _ 2 6 rfl rfl (by decide)
      (stubHeapAfterHost_frame _) rfl rfl rfl⟩

/-- C1 as stated fails: after two calls of `DefaultOpenAPIConfig` (results at 8 and 15),
the `spec.Info` at `&specInfo` is reachable from the first result, and giving it another
title changes the title read through the second result. -/
theorem v2_results_share_specInfo :
    (DefaultOpenAPIConfig stubEnv (init stubEnv)).2 = 8 ∧
    (DefaultOpenAPIConfig stubEnv (DefaultOpenAPIConfig stubEnv (init stubEnv)).1).2 = 15 ∧
    (DefaultOpenAPIConfig stubEnv (DefaultOpenAPIConfig stubEnv (init stubEnv)).1).1.reachableFromConfig
      8 (.info specInfoAddr ⟨"changed", "v4.0.0", some specLicenseAddr, ""⟩) = true ∧
    (((DefaultOpenAPIConfig stubEnv (DefaultOpenAPIConfig stubEnv (init stubEnv)).1).1.write
      (.info specInfoAddr ⟨"changed", "v4.0.0", some specLicenseAddr, ""⟩)).viewConfig 15).Info.map
        (fun i => i.Title) = some "changed" ∧
    ((DefaultOpenAPIConfig stubEnv (DefaultOpenAPIConfig stubEnv (init stubEnv)).1).1.viewConfig
      15).Info.map (fun i => i.Title) = some "OpenShift OAuth-related APIs" ∧
    ((DefaultOpenAPIConfig stubEnv (DefaultOpenAPIConfig stubEnv (init stubEnv)).1).1.write
        (.info specInfoAddr ⟨"changed", "v4.0.0", some specLicenseAddr, ""⟩)).viewConfig 15 ≠
      (DefaultOpenAPIConfig stubEnv (DefaultOpenAPIConfig stubEnv (init stubEnv)).1).1.viewConfig 15 := by
  refine ⟨rfl, rfl, rfl, rfl, rfl, ?_⟩
  intro heq
  have ht := congrArg (fun v => v.Info.map (fun i => i.Title)) heq
  have h1 : (((DefaultOpenAPIConfig stubEnv (DefaultOpenAPIConfig stubEnv (init stubEnv)).1).1.write
      (.info specInfoAddr ⟨"changed", "v4.0.0", some specLicenseAddr, ""⟩)).viewConfig 15).Info.map
        (fun i => i.Title) = some "changed" := rfl
  have h2 : ((DefaultOpenAPIConfig stubEnv (DefaultOpenAPIConfig stubEnv (init stubEnv)).1).1.viewConfig
      15).Info.map (fun i => i.Title) = some "OpenShift OAuth-related APIs" := rfl
  simp only [h1, h2] at ht
  exact absurd ht (by decide)

/-- C1, amended: two results of the same builder share the specification metadata and
nothing else of what the builder constructs.  After two calls of `DefaultOpenAPIConfig`
both results have `&specInfo` as `Info`, and a modification of any object reachable from
the first result other than that `spec.Info` and its license (the struct, the elements of
`ProtocolList` and `IgnorePrefixes`, the default response, the security-definitions
variable, its map, its schemes) leaves the contents of the second result unchanged.  The
same holds for two calls of `DefaultOpenAPIV3Config` and the struct, the elements of
`IgnorePrefixes`, the `SecuritySchemes` map and its schemes, when the framework helper on
the second call returns a newly allocated struct and only allocates. -/
theorem results_share_only_specInfo
    (env : Collaborators Scheme Namer GetDefs NameFn Rest Fail) (h : Heap GetDefs NameFn Rest) :
    (((DefaultOpenAPIConfig env (DefaultOpenAPIConfig env h).1).1.configs
          (DefaultOpenAPIConfig env h).2).Info = some specInfoAddr ∧
      ((DefaultOpenAPIConfig env (DefaultOpenAPIConfig env h).1).1.configs
          (DefaultOpenAPIConfig env (DefaultOpenAPIConfig env h).1).2).Info = some specInfoAddr ∧
      ∀ w : Write GetDefs NameFn Rest,
        (DefaultOpenAPIConfig env (DefaultOpenAPIConfig env h).1).1.reachableFromConfig
          (DefaultOpenAPIConfig env h).2 w = true →
        w.onInfo = false →
        ((DefaultOpenAPIConfig env (DefaultOpenAPIConfig env h).1).1.write w).viewConfig
            (DefaultOpenAPIConfig env (DefaultOpenAPIConfig env h).1).2 =
          (DefaultOpenAPIConfig env (DefaultOpenAPIConfig env h).1).1.viewConfig
            (DefaultOpenAPIConfig env (DefaultOpenAPIConfig env h).1).2) ∧
    (∀ h1 g2 c1 c2, DefaultOpenAPIV3Config env h = .ok (h1, c1) →
      env.hostDefault h1 = .ok (g2, some c2) → c1 < h1.next → h1.next ≤ c2 →
      h1.FrameBelow g2 →
      ∃ h2, DefaultOpenAPIV3Config env h1 = .ok (h2, c2) ∧
        (h2.v3configs c1).Info = some specInfoAddr ∧
        (h2.v3configs c2).Info = some specInfoAddr ∧
        ∀ w : Write GetDefs NameFn Rest, h2.reachableFromV3Config c1 w = true →
          w.onInfo = false →
          (h2.write w).viewV3Config c2 = h2.viewV3Config c2) := by
  refine ⟨⟨?_, ?_, ?_⟩, ?_⟩
  · simp [DefaultOpenAPIConfig, upd, Nat.add_assoc]
  · simp [DefaultOpenAPIConfig, upd, Nat.add_assoc]
  · intro w hreach hw
    cases w <;>
      simp [DefaultOpenAPIConfig, Heap.reachableFromConfig, Write.onInfo, upd, mapAssign,
        Nat.add_assoc] at hreach hw <;>
      (try rcases hreach with rfl | rfl) <;>
      simp [DefaultOpenAPIConfig, Heap.viewConfig, Heap.sliceElems, Heap.viewInfo,
        Heap.viewSecDefMap, Heap.write, upd, mapAssign, Nat.add_assoc]
  · intro h1 g2 c1 c2 hv1 hhost2 hc1 hc2 hframe
    obtain ⟨g1, -, hnext, e1, e2, e3, e4, -, -⟩ := v3_result env h h1 c1 hv1
    obtain ⟨hle, hfr⟩ := hframe
    have f1 := (hfr c1 hc1).2.2.2.2.2.2.2.2.2.2
    have f3 := (hfr (g1.next + 1) (by omega)).2.2.2.2.2.2.2.2.2.1
    rw [e1] at f1
    rw [e3] at f3
    simp only [upd_same] at f1 f3
    have hne : c1 ≠ c2 := by omega
    simp only [Collaborators.hostDefault, Collaborators.defNamer] at hhost2
    simp only [DefaultOpenAPIV3Config, hhost2]
    refine ⟨_, rfl, ?_, ?_, ?_⟩
    · simp (disch := omega) [upd_same, upd_of_ne, f1]
    · simp [upd_same]
    · intro w hreach hw
      cases w <;>
        simp (disch := omega) [Heap.reachableFromV3Config, Write.onInfo, mapAssign, upd_same,
          upd_of_ne, f1, f3] at hreach hw <;>
        (try subst hreach) <;>
        simp (disch := omega) [Heap.viewV3Config, Heap.sliceElems, Heap.viewInfo,
          Heap.viewSchemeMap3, Heap.write, mapAssign, upd_same, upd_of_ne]

/-- Witness of the amended C1 on the stub collaborators.  After two calls of
`DefaultOpenAPIConfig` from the initial heap the backing array of the first result's
`IgnorePrefixes` is at 6, and after two calls of `DefaultOpenAPIV3Config` (results at 2
and 6) that of the first result is at 3; overwriting it leaves the second result as it is. -/
theorem results_share_only_specInfo_witness :
    ((DefaultOpenAPIConfig stubEnv (DefaultOpenAPIConfig stubEnv (init stubEnv)).1).1.write
        (.strArray 6 ["/changed"])).viewConfig 15 =
      (DefaultOpenAPIConfig stubEnv (DefaultOpenAPIConfig stubEnv (init stubEnv)).1).1.viewConfig 15 ∧
    DefaultOpenAPIV3Config stubEnv (init stubEnv) = .ok (stubHeapAfterV3 (init stubEnv), 2) ∧
    stubEnv.hostDefault (stubHeapAfterV3 (init stubEnv)) =
      .ok (stubHeapAfterHost (stubHeapAfterV3 (init stubEnv)), some 6) ∧
    DefaultOpenAPIV3Config stubEnv (stubHeapAfterV3 (init stubEnv)) =
      .ok (stubHeapAfterV3 (stubHeapAfterV3 (init stubEnv)), 6) ∧
    ((stubHeapAfterV3 (stubHeapAfterV3 (init stubEnv))).write
        (.strArray 3 ["/changed"])).viewV3Config 6 =
      (stubHeapAfterV3 (stubHeapAfterV3 (init stubEnv))).viewV3Config 6 := by
  refine ⟨(results_share_only_specInfo stubEnv (init stubEnv)).1.2.2 (.strArray 6 ["/changed"])
    rfl rfl, rfl, rfl, rfl, ?_⟩
  obtain ⟨h2, hv, -, -, hw⟩ := (results_share_only_specInfo stubEnv (init stubEnv)).2 _ _ 2 6
    rfl rfl (by decide) (by decide) (stubHeapAfterHost_frame _)
  have e : (Except.ok (h2, 6) : Except (Failure String) _) =
      .ok (stubHeapAfterV3 (stubHeapAfterV3 (init stubEnv)), 6) := hv.symm.trans rfl
  cases e
  exact hw (.strArray 3 ["/changed"]) rfl rfl

end Claims

end openapiconfig
